import Mathlib

/-!
Verification development for the CR4TTTIconScript asset generator
(`script.py`): a shallow embedding of its image pipeline (PIL thumbnail,
paste-with-mask, shadow construction), PNG set builder, `.vmt` descriptor
emitter, VTF converter invoker and CLI entry point, together with theorems
settling the specification's claims.

Modelling conventions:
* An image is its dimensions plus a pixel function (RGBA channels as `Nat`).
* The resampling kernels of `Image.resize` (LANCZOS) and of
  `GaussianBlur` are external C code in Pillow; they are passed as
  function parameters that produce the pixel contents, while the
  dimension behaviour (the part the claims speak about) is embedded
  exactly.
* Python integers are `Int` (`//` is `Int.fdiv`), float arithmetic inside
  PIL's `thumbnail` is embedded over `ℚ`.
* File-system effects are an explicit event trace; the template directory
  and the source image are inputs (`String → Option Image`, `Option Image`).
-/

/-- One RGBA pixel, channels 0..255. -/
structure RGBA where
  r : Nat
  g : Nat
  b : Nat
  a : Nat
deriving DecidableEq

/-- An in-memory image: dimensions plus pixel accessor (PIL `Image`). -/
structure Image where
  width : Nat
  height : Nat
  px : Nat → Nat → RGBA

/-- Model of `Image.new("RGBA", (w, h), color)`. -/
def Image.new (w h : Nat) (c : RGBA) : Image :=
  ⟨w, h, fun _ _ => c⟩

/-- Pillow's `MULDIV255(a, b)` rounding helper: `t = a*b + 128; ((t >> 8) + t) >> 8`. -/
def muldiv255 (a b : Nat) : Nat :=
  let t := a * b + 128
  (t / 256 + t) / 256

/-- Pillow's per-channel `BLEND(mask, dst, src)` used by `paste` with a mask. -/
def blendChannel (m d s : Nat) : Nat :=
  muldiv255 d (255 - m) + muldiv255 s m

/-- Model of `dst.paste(src, pos, mask)`: pixels inside the pasted box are blended with the
mask's alpha channel; pixels outside are untouched (PIL clips the box to the canvas).
The result has `dst`'s dimensions. -/
def Image.paste (dst src mask : Image) (pos : Int × Int) : Image :=
  { width := dst.width
    height := dst.height
    px := fun i j =>
      if pos.1 ≤ (i : Int) ∧ (i : Int) < pos.1 + src.width ∧
         pos.2 ≤ (j : Int) ∧ (j : Int) < pos.2 + src.height then
        let sx := ((i : Int) - pos.1).toNat
        let sy := ((j : Int) - pos.2).toNat
        let m := (mask.px sx sy).a
        let d := dst.px i j
        let s := src.px sx sy
        ⟨blendChannel m d.r s.r, blendChannel m d.g s.g,
         blendChannel m d.b s.b, blendChannel m d.a s.a⟩
      else dst.px i j }

/-- Pixel producer standing for Pillow's resampling C kernel: given the source
image and the target dimensions, yields the resampled pixel contents. -/
abbrev ResizeKernel := Image → Nat → Nat → Nat → Nat → RGBA

/-- Pixel producer standing for Pillow's Gaussian-blur C kernel: given the
source image and the radius, yields the blurred pixel contents. -/
abbrev BlurKernel := Image → Int → Nat → Nat → RGBA

/-- Model of `img.resize((w, h), LANCZOS)`: dimensions become exactly `(w, h)`;
pixel contents come from the resampling kernel. -/
def Image.resize (rk : ResizeKernel) (img : Image) (w h : Nat) : Image :=
  ⟨w, h, rk img w h⟩

/-- Model of `img.filter(ImageFilter.GaussianBlur(radius))`: size-preserving;
pixel contents come from the blur kernel. -/
def Image.gaussianBlur (bk : BlurKernel) (img : Image) (radius : Int) : Image :=
  ⟨img.width, img.height, bk img radius⟩

/-- Pillow's `round_aspect(number, key)` inside `Image.thumbnail`:
`max(min(floor(number), ceil(number), key=key), 1)` (Python's two-argument
`min` with a key returns the first argument on ties). -/
def round_aspect (q : ℚ) (key : Int → ℚ) : Int :=
  max (if key ⌊q⌋ ≤ key ⌈q⌉ then ⌊q⌋ else ⌈q⌉) 1

/-- The aspect-preserving target size computed by Pillow's `Image.thumbnail`
when a resize is needed: keeps one requested dimension and rounds the other
to the source's aspect ratio `width / height`. -/
def thumbTarget (w h : Nat) (sx sy : Int) : Int × Int :=
  let aspect : ℚ := (w : ℚ) / (h : ℚ)
  if aspect ≤ (sx : ℚ) / (sy : ℚ) then
    (round_aspect ((sy : ℚ) * aspect) (fun n => |aspect - (n : ℚ) / (sy : ℚ)|), sy)
  else
    (sx, round_aspect ((sx : ℚ) / aspect)
      (fun n => if n = 0 then 0 else |aspect - (sx : ℚ) / (n : ℚ)|))

/-- Model of `img.thumbnail((sx, sy), LANCZOS)`: in-place "fit within box" downscale.
Returns the image unchanged when it already fits the requested box (no
upscaling); otherwise resizes to the aspect-preserving target. -/
def Image.thumbnail (rk : ResizeKernel) (img : Image) (sx sy : Int) : Image :=
  if (img.width : Int) ≤ sx ∧ (img.height : Int) ≤ sy then img
  else
    let p := thumbTarget img.width img.height sx sy
    if img.width = p.1.toNat ∧ img.height = p.2.toNat then img
    else img.resize rk p.1.toNat p.2.toNat

/-- Model of `build_shadow(icon, blur)`: the icon's alpha channel as the alpha of an
opaque-black image of the icon's size, Gaussian-blurred with radius `blur`. -/
def build_shadow (bk : BlurKernel) (icon : Image) (blur : Int) : Image :=
  Image.gaussianBlur bk ⟨icon.width, icon.height, fun x y => ⟨0, 0, 0, (icon.px x y).a⟩⟩ blur

/-- The pure body of `make_icon_layer` once the source image is loaded:
thumbnail to `max(canvas_size - 2*margin, 1)`, optional shadow paste at the
centred position diagonally offset by `offset`, then the sharp icon pasted
centred. -/
def iconLayerImg (rk : ResizeKernel) (bk : BlurKernel) (img : Image)
    (canvas_size blur offset margin : Int) : Image :=
  let thumb := max (canvas_size - 2 * margin) 1
  let icon := Image.thumbnail rk img thumb thumb
  let layer := Image.new canvas_size.toNat canvas_size.toNat ⟨0, 0, 0, 0⟩
  let layer :=
    if 0 < blur then
      let sh := build_shadow bk icon blur
      layer.paste sh sh
        ((canvas_size - (sh.width : Int)).fdiv 2 + offset,
         (canvas_size - (sh.height : Int)).fdiv 2 + offset)
    else layer
  layer.paste icon icon
    ((canvas_size - (icon.width : Int)).fdiv 2,
     (canvas_size - (icon.height : Int)).fdiv 2)

/-- Model of `Image.open(src).convert("RGBA")`: loading the user-supplied source image;
an unreadable or missing file raises (here: `Except.error`). -/
def openRGBA (src : Option Image) : Except String Image :=
  match src with
  | some img => Except.ok img
  | none => Except.error "ImageLoadError"

/-- Model of `make_icon_layer(src, canvas_size, blur, offset, margin)`: opens the source
image (propagating load failure) and composites the layer. -/
def make_icon_layer (rk : ResizeKernel) (bk : BlurKernel) (src : Option Image)
    (canvas_size blur offset margin : Int) : Except String Image :=
  (openRGBA src).map (fun img => iconLayerImg rk bk img canvas_size blur offset margin)

/-- One observable side effect of a run: directory creation, template read,
PNG save, text-file write, console output, converter invocation. -/
inductive Event where
  | mkdirp (path : String)
  | openTemplate (name : String)
  | savePng (path : String) (img : Image)
  | writeText (path : String) (content : String)
  | printMsg (msg : String)
  | runConverter (file : String)

/-- One row of the `specs` table in `create_png_set`:
`(variant, default_size, blur, offset, margin, template_filename)`. -/
structure VariantSpec where
  variant : String
  dsize : Int
  blur : Int
  offset : Int
  margin : Int
  tpl : String

/-- The fixed variant table of `create_png_set` (score margin set to 0,
icon margin 10). -/
def specs : List VariantSpec :=
  [⟨"score", 64, 0, 0, 0, "score_template.png"⟩,
   ⟨"sprite", 256, 3, 2, 3, "sprite_template.png"⟩,
   ⟨"icon", 256, 5, 4, 10, "icon_template.png"⟩]

/-- The body of `create_png_set`'s loop for one variant row: pick the canvas
(always blank for score; the template when it exists, else blank default),
composite the layer centred onto it and save `<variant>_<ns>.png`. -/
def processVariant (rk : ResizeKernel) (bk : BlurKernel)
    (tpls : String → Option Image) (img : Image) (out ns : String)
    (s : VariantSpec) : List Event :=
  let cse : Image × Int × List Event :=
    if s.variant = "score" then
      (Image.new s.dsize.toNat s.dsize.toNat ⟨0, 0, 0, 0⟩, s.dsize, [])
    else
      match tpls s.tpl with
      | some t => (t, (t.width : Int), [Event.openTemplate s.tpl])
      | none => (Image.new s.dsize.toNat s.dsize.toNat ⟨0, 0, 0, 0⟩, s.dsize, [])
  let canvas := cse.1
  let size := cse.2.1
  let layer := iconLayerImg rk bk img size s.blur s.offset s.margin
  let x := (size - (layer.width : Int)).fdiv 2
  let y := (size - (layer.height : Int)).fdiv 2
  cse.2.2 ++ [Event.savePng (out ++ "/" ++ s.variant ++ "_" ++ ns ++ ".png")
                (canvas.paste layer layer (x, y))]

/-- Model of `create_png_set(src, ns, out, tpl_dir)`: creates the output directory, then
saves the bare 16×16 tab layer and the three variant PNGs. In the source the
source image is re-opened by each `make_icon_layer` call; a load failure
therefore aborts at the first (tab) call, after only the `mkdir`. -/
def create_png_set (rk : ResizeKernel) (bk : BlurKernel)
    (tpls : String → Option Image) (src : Option Image)
    (out ns : String) : List Event × Except String Unit :=
  match src with
  | none => ([Event.mkdirp out], Except.error "ImageLoadError")
  | some img =>
    let tab := iconLayerImg rk bk img 16 0 0 0
    (Event.mkdirp out ::
       Event.savePng (out ++ "/tab_" ++ ns ++ ".png") tab ::
       (specs.map (processVariant rk bk tpls img out ns)).flatten,
     Except.ok ())

/-- The `$basetexture` line of a `.vmt` file. -/
def btex_line (base_path basetex : String) : String :=
  "\t\"$basetexture\" \"" ++ base_path ++ "/" ++ basetex ++ "\""

/-- The line list built by `generate_vmt_files.write`: fixed header and flag
lines, with `$ignorez 1` inserted after `$nocull 1` exactly when requested. -/
def vmt_lines (base_path basetex : String) (ignorez : Bool) : List String :=
  ["\"UnlitGeneric\"", "\x7b", btex_line base_path basetex, "\t$nocull 1"]
    ++ (if ignorez then ["\t$ignorez 1"] else [])
    ++ ["\t$nodecal 1", "\t$nolod 1", "\t$vertexcolor 1", "\t$vertexalpha 1",
        "\t$translucent 1", "\x7d"]

/-- Content `"\n".join(lines) + "\n"` of one `.vmt` file. -/
def vmt_content (base_path basetex : String) (ignorez : Bool) : String :=
  "\n".intercalate (vmt_lines base_path basetex ignorez) ++ "\n"

/-- Model of `generate_vmt_files(out, ns)`: writes exactly three descriptor files;
both sprite files reference `sprite_<ns>`, only `_noz` carries `$ignorez`. -/
def generate_vmt_files (out ns : String) : List Event :=
  let base_path := "vgui/ttt/roles/" ++ ns
  [Event.writeText (out ++ "/sprite_" ++ ns ++ ".vmt")
     (vmt_content base_path ("sprite_" ++ ns) false),
   Event.writeText (out ++ "/sprite_" ++ ns ++ "_noz.vmt")
     (vmt_content base_path ("sprite_" ++ ns) true),
   Event.writeText (out ++ "/icon_" ++ ns ++ ".vmt")
     (vmt_content base_path ("icon_" ++ ns) false)]

/-- The hardcoded converter path `VTF_CMD`. -/
def VTF_CMD : String := "E:\\Garry\\Software\\vtflib132-bin\\bin\\x64\\VTFCmd.exe"

/-- Model of `subprocess.run([...], check=True)`: raises `CalledProcessError` exactly on
a non-zero exit code. -/
def runSubprocessCheck (exitCode : Int) : Except Int Unit :=
  if exitCode = 0 then Except.ok () else Except.error exitCode

/-- One iteration of `convert_vtf`'s loop: announce, invoke the converter,
and catch a non-zero exit as a printed warning (the `try`/`except` block). -/
def convertOne (exits : String → Int) (out png : String) : List Event :=
  let attempt := [Event.printMsg ("→ Converting " ++ png ++ " …"),
                  Event.runConverter (out ++ "/" ++ png)]
  match runSubprocessCheck (exits png) with
  | Except.ok _ => attempt
  | Except.error c =>
      attempt ++ [Event.printMsg ("⚠️  VTFCmd failed on " ++ png ++ ": exit " ++ toString c)]

/-- Model of `convert_vtf(out, ns, skip)`: skip notice, missing-executable warning, or
per-file conversion of the sprite and icon PNGs. The `Except` component
records whether an exception escapes to the caller (it never does). -/
def convert_vtf (exits : String → Int) (vtfExists : Bool)
    (out ns : String) (skip : Bool) : List Event × Except String Unit :=
  if skip then
    ([Event.printMsg "– Skipping VTF conversion."], Except.ok ())
  else if vtfExists = false then
    ([Event.printMsg ("⚠️  VTFCmd.exe not found at " ++ VTF_CMD ++ "; skipping.")],
     Except.ok ())
  else
    (((["sprite_" ++ ns, "icon_" ++ ns].map
        (fun name => convertOne exits out (name ++ ".png"))).flatten),
     Except.ok ())

/-- The three case predicates of the Unicode character database that CPython's
`str.islower` consults (`Py_UNICODE_ISUPPER`, `Py_UNICODE_ISTITLE`,
`Py_UNICODE_ISLOWER`). The database is external data of the Python runtime,
embedded as a parameter like the Pillow pixel kernels; in the real database
a lowercase character is never also uppercase or titlecased. -/
structure UnicodeData where
  isUpper : Char → Bool
  isTitle : Char → Bool
  isLower : Char → Bool

/-- A character is cased for `str.islower`'s documented characterisation when
it is uppercase, titlecased or lowercase in the database. -/
def isCasedChar (ud : UnicodeData) (c : Char) : Bool :=
  ud.isUpper c || ud.isTitle c || ud.isLower c

/-- CPython's `str.islower` loop: an uppercase or titlecased character fails
immediately; the accumulator records whether a lowercase character has been
seen. -/
def islowerLoop (ud : UnicodeData) : List Char → Bool → Bool
  | [], cased => cased
  | c :: cs, cased =>
    if ud.isUpper c || ud.isTitle c then false
    else if ud.isLower c then islowerLoop ud cs true
    else islowerLoop ud cs cased

/-- Python's `s.islower()` over the given case database: true iff no character
is uppercase or titlecased and at least one character is lowercase. -/
def pyStrIsLower (ud : UnicodeData) (s : String) : Bool := islowerLoop ud s.toList false

/-- The ASCII fragment of the Unicode case database: on ASCII characters the
Unicode uppercase and lowercase properties are exactly the ASCII letter
ranges and no ASCII character is titlecased. The `islower` loop only
consults the characters of its input, so this fragment determines the
program's behaviour on all-ASCII `nameshort` values; it is used to
instantiate the concrete ASCII scenarios. -/
def asciiUD : UnicodeData :=
  ⟨fun c => c.isUpper, fun _ => false, fun c => c.isLower⟩

/-- Final state of a run: normal completion, `sys.exit(msg)` (non-zero exit
with a user-facing message), or an unhandled exception. -/
inductive Outcome where
  | ok
  | exited (msg : String)
  | raised (msg : String)
deriving DecidableEq

/-- The parsed CLI arguments plus the pieces of the environment a run reads:
the source image (`--image`, `none` when unreadable/missing), the template
directory next to the script, the converter's presence and its per-file
exit codes. -/
structure Args where
  image : Option Image
  nameraw : String
  nameshort : String
  out : String
  no_vtf : Bool
  templates : String → Option Image
  vtfExists : Bool
  converterExits : String → Int

/-- Model of `main(argv)` after argument parsing: lowercase validation
(`args.nameshort.islower()` over the runtime's case database), then
`create_png_set`, `convert_vtf`, `generate_vmt_files` in that order,
accumulating the effect trace. -/
def mainEntry (rk : ResizeKernel) (bk : BlurKernel) (ud : UnicodeData)
    (a : Args) : List Event × Outcome :=
  if pyStrIsLower ud a.nameshort = false then
    ([], Outcome.exited "Error: nameshort must be lowercase")
  else
    let out_dir := a.out ++ "/converted/" ++ a.nameshort
    match create_png_set rk bk a.templates a.image out_dir a.nameshort with
    | (tr1, Except.error e) => (tr1, Outcome.raised e)
    | (tr1, Except.ok _) =>
      match convert_vtf a.converterExits a.vtfExists out_dir a.nameshort a.no_vtf with
      | (tr2, Except.error e) => (tr1 ++ tr2, Outcome.raised e)
      | (tr2, Except.ok _) =>
        (tr1 ++ tr2 ++ generate_vmt_files out_dir a.nameshort, Outcome.ok)

/-- The PNG saves of a trace, as `(path, width, height)`. -/
def pngSaves (tr : List Event) : List (String × Nat × Nat) :=
  tr.filterMap fun e =>
    match e with
    | Event.savePng n img => some (n, img.width, img.height)
    | _ => none

/-- The PNG saves of a trace, keeping the saved image itself. -/
def pngSavesFull (tr : List Event) : List (String × Image) :=
  tr.filterMap fun e =>
    match e with
    | Event.savePng n img => some (n, img)
    | _ => none

/-- The text-file writes of a trace (paths only). -/
def textWrites (tr : List Event) : List String :=
  tr.filterMap fun e =>
    match e with
    | Event.writeText n _ => some n
    | _ => none

/-- The converter invocations of a trace. -/
def converterCalls (tr : List Event) : List String :=
  tr.filterMap fun e =>
    match e with
    | Event.runConverter f => some f
    | _ => none

/-- The console output of a trace. -/
def prints (tr : List Event) : List String :=
  tr.filterMap fun e =>
    match e with
    | Event.printMsg m => some m
    | _ => none

/-- The template files read by a trace. -/
def templateReads (tr : List Event) : List String :=
  tr.filterMap fun e =>
    match e with
    | Event.openTemplate n => some n
    | _ => none

/-- Dimensions of a variant's saved output given the template lookup result
and the variant's default size (the amended form of the square-output claim). -/
def templateDims : Option Image → Nat → Nat × Nat
  | some t, _ => (t.width, t.height)
  | none, d => (d, d)

/-- Boolean membership of a line in a line list. -/
def hasLine (ls : List String) (l : String) : Bool := ls.any (· == l)

/-- Concrete nearest-neighbour resampling kernel (used to instantiate
witnesses; the claims' dimension statements hold for every kernel). -/
def rkNearest : ResizeKernel :=
  fun img w h x y => img.px (x * img.width / w) (y * img.height / h)

/-- Concrete blur kernel that keeps pixel contents (witness instantiation). -/
def bkId : BlurKernel := fun img _ x y => img.px x y

/-- A concrete 8×8 opaque white source image. -/
def img8 : Image := Image.new 8 8 ⟨255, 255, 255, 255⟩

/-- A concrete 512×512 opaque red source image (the end-to-end scenario). -/
def img512 : Image := Image.new 512 512 ⟨255, 0, 0, 255⟩

/-- A template directory holding a non-square 300×200 sprite template. -/
def tplsNonSquare : String → Option Image :=
  fun n => if n = "sprite_template.png" then some (Image.new 300 200 ⟨0, 0, 0, 128⟩) else none

/-- An empty template directory. -/
def tplsEmpty : String → Option Image := fun _ => none

/-- Arguments of the end-to-end scenario: 512×512 source, nameshort `test`,
`--no-vtf`, no templates. -/
def argsC9 : Args :=
  { image := some img512, nameraw := "Test", nameshort := "test",
    out := "RoleAddon", no_vtf := true, templates := tplsEmpty,
    vtfExists := false, converterExits := fun _ => 0 }

/-- Arguments with the non-lowercase nameshort `Foo`. -/
def argsFoo : Args :=
  { image := some img8, nameraw := "Foo", nameshort := "Foo",
    out := "RoleAddon", no_vtf := true, templates := tplsEmpty,
    vtfExists := false, converterExits := fun _ => 0 }

/-- Arguments with the lowercase nameshort `foo`. -/
def argsfoo : Args :=
  { image := some img8, nameraw := "Foo", nameshort := "foo",
    out := "RoleAddon", no_vtf := true, templates := tplsEmpty,
    vtfExists := false, converterExits := fun _ => 0 }

/-- Arguments with the digits-only nameshort `123`. -/
def args123 : Args :=
  { image := some img8, nameraw := "x", nameshort := "123",
    out := "RoleAddon", no_vtf := true, templates := tplsEmpty,
    vtfExists := false, converterExits := fun _ => 0 }

/-- Arguments whose source image is unreadable. -/
def argsNoImage : Args :=
  { image := none, nameraw := "x", nameshort := "foo",
    out := "RoleAddon", no_vtf := true, templates := tplsEmpty,
    vtfExists := false, converterExits := fun _ => 0 }

/-- The value of `round_aspect` never exceeds an integer bound `z ≥ 1` dominating its
rational argument, whatever the tie-breaking key. -/
theorem round_aspect_le (q : ℚ) (key : Int → ℚ) (z : Int)
    (h1 : 1 ≤ z) (hq : q ≤ (z : ℚ)) : round_aspect q key ≤ z := by
  have hc : ⌈q⌉ ≤ z := Int.ceil_le.mpr hq
  have hf : ⌊q⌋ ≤ z := le_trans (Int.floor_le_ceil q) hc
  unfold round_aspect
  rcases le_or_lt (key ⌊q⌋) (key ⌈q⌉) with hk | hk
  · rw [if_pos hk]; exact max_le hf h1
  · rw [if_neg (not_le.mpr hk)]; exact max_le hc h1

/-- Evaluation of `thumbTarget` in the wide branch: keep `sy`, round `sy * aspect`. -/
theorem thumbTarget_pos_eq (w h : Nat) (sx sy : Int)
    (hbr : (w : ℚ) / (h : ℚ) ≤ (sx : ℚ) / (sy : ℚ)) :
    thumbTarget w h sx sy =
      (round_aspect ((sy : ℚ) * ((w : ℚ) / (h : ℚ)))
        (fun n => |(w : ℚ) / (h : ℚ) - (n : ℚ) / (sy : ℚ)|), sy) := by
  simp only [thumbTarget]
  rw [if_pos hbr]

/-- Evaluation of `thumbTarget` in the tall branch: keep `sx`, round `sx / aspect`. -/
theorem thumbTarget_neg_eq (w h : Nat) (sx sy : Int)
    (hbr : ¬((w : ℚ) / (h : ℚ) ≤ (sx : ℚ) / (sy : ℚ))) :
    thumbTarget w h sx sy =
      (sx, round_aspect ((sx : ℚ) / ((w : ℚ) / (h : ℚ)))
        (fun n => if n = 0 then 0 else |(w : ℚ) / (h : ℚ) - (sx : ℚ) / (n : ℚ)|)) := by
  simp only [thumbTarget]
  rw [if_neg hbr]

/-- When a resize is needed, the computed target never exceeds the requested
box (for requests ≥ 1) nor the source's own dimensions. -/
theorem thumbTarget_bounds (w h : Nat) (sx sy : Int)
    (hw : 0 < w) (hh : 0 < h) (hsx : 1 ≤ sx) (hsy : 1 ≤ sy)
    (hne : ¬((w : Int) ≤ sx ∧ (h : Int) ≤ sy)) :
    (thumbTarget w h sx sy).1 ≤ sx ∧ (thumbTarget w h sx sy).1 ≤ (w : Int) ∧
    (thumbTarget w h sx sy).2 ≤ sy ∧ (thumbTarget w h sx sy).2 ≤ (h : Int) := by
  have hW : (0 : ℚ) < (w : ℚ) := by exact_mod_cast hw
  have hH : (0 : ℚ) < (h : ℚ) := by exact_mod_cast hh
  have hSY : (0 : ℚ) < (sy : ℚ) := by exact_mod_cast lt_of_lt_of_le zero_lt_one hsy
  have hw1 : 1 ≤ (w : Int) := by exact_mod_cast hw
  have hh1 : 1 ≤ (h : Int) := by exact_mod_cast hh
  rcases le_or_lt ((w : ℚ) / (h : ℚ)) ((sx : ℚ) / (sy : ℚ)) with hbr | hbr
  · have heq := thumbTarget_pos_eq w h sx sy hbr
    have hfst : (thumbTarget w h sx sy).1 =
        round_aspect ((sy : ℚ) * ((w : ℚ) / (h : ℚ)))
          (fun n => |(w : ℚ) / (h : ℚ) - (n : ℚ) / (sy : ℚ)|) := by rw [heq]
    have hsnd : (thumbTarget w h sx sy).2 = sy := by rw [heq]
    rw [hfst, hsnd]
    have hcross : (w : ℚ) * (sy : ℚ) ≤ (sx : ℚ) * (h : ℚ) :=
      (div_le_div_iff₀ hH hSY).mp hbr
    have hsyh : sy ≤ (h : Int) := by
      by_contra hgt
      push_neg at hgt
      have hq : (h : ℚ) < (sy : ℚ) := by exact_mod_cast hgt
      have h1 : (w : ℚ) * (h : ℚ) < (w : ℚ) * (sy : ℚ) := mul_lt_mul_of_pos_left hq hW
      have h2 : (w : ℚ) * (h : ℚ) < (sx : ℚ) * (h : ℚ) := lt_of_lt_of_le h1 hcross
      have h3 : (w : ℚ) < (sx : ℚ) := (mul_lt_mul_right hH).mp h2
      have h4 : (w : Int) < sx := by exact_mod_cast h3
      exact hne ⟨le_of_lt h4, le_of_lt hgt⟩
    have hsyhq : (sy : ℚ) ≤ (h : ℚ) := by exact_mod_cast hsyh
    have hq1 : (sy : ℚ) * ((w : ℚ) / (h : ℚ)) ≤ (sx : ℚ) := by
      rw [mul_div_assoc', div_le_iff₀ hH, mul_comm (sy : ℚ) (w : ℚ)]
      exact hcross
    have hq2 : (sy : ℚ) * ((w : ℚ) / (h : ℚ)) ≤ ((w : Int) : ℚ) := by
      push_cast
      rw [mul_div_assoc', div_le_iff₀ hH, mul_comm (sy : ℚ) (w : ℚ)]
      exact mul_le_mul_of_nonneg_left hsyhq (le_of_lt hW)
    exact ⟨round_aspect_le _ _ _ hsx hq1, round_aspect_le _ _ _ hw1 hq2,
      le_refl _, hsyh⟩
  · have heq := thumbTarget_neg_eq w h sx sy (not_le.mpr hbr)
    have hfst : (thumbTarget w h sx sy).1 = sx := by rw [heq]
    have hsnd : (thumbTarget w h sx sy).2 =
        round_aspect ((sx : ℚ) / ((w : ℚ) / (h : ℚ)))
          (fun n => if n = 0 then 0 else |(w : ℚ) / (h : ℚ) - (sx : ℚ) / (n : ℚ)|) := by
      rw [heq]
    rw [hfst, hsnd]
    have hcross : (sx : ℚ) * (h : ℚ) < (w : ℚ) * (sy : ℚ) :=
      (div_lt_div_iff₀ hSY hH).mp hbr
    have hsxw : sx ≤ (w : Int) := by
      by_contra hgt
      push_neg at hgt
      have hq : (w : ℚ) < (sx : ℚ) := by exact_mod_cast hgt
      have h1 : (w : ℚ) * (h : ℚ) < (sx : ℚ) * (h : ℚ) := mul_lt_mul_of_pos_right hq hH
      have h2 : (w : ℚ) * (h : ℚ) < (w : ℚ) * (sy : ℚ) := lt_trans h1 hcross
      have h3 : (h : ℚ) < (sy : ℚ) := (mul_lt_mul_left hW).mp h2
      have h4 : (h : Int) < sy := by exact_mod_cast h3
      exact hne ⟨le_of_lt hgt, le_of_lt h4⟩
    have hsxwq : (sx : ℚ) ≤ (w : ℚ) := by exact_mod_cast hsxw
    have hdd : (sx : ℚ) / ((w : ℚ) / (h : ℚ)) = (sx : ℚ) * (h : ℚ) / (w : ℚ) :=
      div_div_eq_mul_div _ _ _
    have hq1 : (sx : ℚ) / ((w : ℚ) / (h : ℚ)) ≤ (sy : ℚ) := by
      rw [hdd, div_le_iff₀ hW, mul_comm (sy : ℚ) (w : ℚ)]
      exact le_of_lt hcross
    have hq2 : (sx : ℚ) / ((w : ℚ) / (h : ℚ)) ≤ ((h : Int) : ℚ) := by
      push_cast
      rw [hdd, div_le_iff₀ hW, mul_comm (h : ℚ) (w : ℚ)]
      exact mul_le_mul_of_nonneg_right hsxwq (le_of_lt hH)
    exact ⟨le_refl _, hsxw, round_aspect_le _ _ _ hsy hq1,
      round_aspect_le _ _ _ hh1 hq2⟩

/-- The result of `Image.thumbnail` fits the requested box (for requests ≥ 1) and never
upscales beyond the source's dimensions. -/
theorem thumbnail_dims_le (rk : ResizeKernel) (img : Image) (sx sy : Int)
    (hsx : 1 ≤ sx) (hsy : 1 ≤ sy) (hw : 0 < img.width) (hh : 0 < img.height) :
    (Image.thumbnail rk img sx sy).width ≤ sx.toNat ∧
    (Image.thumbnail rk img sx sy).height ≤ sy.toNat ∧
    (Image.thumbnail rk img sx sy).width ≤ img.width ∧
    (Image.thumbnail rk img sx sy).height ≤ img.height := by
  by_cases h1 : (img.width : Int) ≤ sx ∧ (img.height : Int) ≤ sy
  · have heq : Image.thumbnail rk img sx sy = img := by
      simp only [Image.thumbnail]
      rw [if_pos h1]
    rw [heq]
    refine ⟨?_, ?_, le_refl _, le_refl _⟩
    · have h2 := Int.toNat_le_toNat h1.1
      rwa [Int.toNat_natCast] at h2
    · have h2 := Int.toNat_le_toNat h1.2
      rwa [Int.toNat_natCast] at h2
  · have hb := thumbTarget_bounds img.width img.height sx sy hw hh hsx hsy h1
    by_cases h2 : img.width = (thumbTarget img.width img.height sx sy).1.toNat ∧
        img.height = (thumbTarget img.width img.height sx sy).2.toNat
    · have heq : Image.thumbnail rk img sx sy = img := by
        simp only [Image.thumbnail]
        rw [if_neg h1, if_pos h2]
      rw [heq]
      refine ⟨?_, ?_, le_refl _, le_refl _⟩
      · rw [h2.1]; exact Int.toNat_le_toNat hb.1
      · rw [h2.2]; exact Int.toNat_le_toNat hb.2.2.1
    · have heq : Image.thumbnail rk img sx sy =
          img.resize rk (thumbTarget img.width img.height sx sy).1.toNat
            (thumbTarget img.width img.height sx sy).2.toNat := by
        simp only [Image.thumbnail]
        rw [if_neg h1, if_neg h2]
      rw [heq]
      simp only [Image.resize]
      exact ⟨Int.toNat_le_toNat hb.1, Int.toNat_le_toNat hb.2.2.1,
        Int.toNat_le.mpr hb.2.1, Int.toNat_le.mpr hb.2.2.2⟩

/-- An ASCII uppercase letter is not a lowercase letter. -/
theorem isUpper_isLower_false (c : Char) (h : c.isUpper = true) : c.isLower = false := by
  simp only [Char.isUpper, Char.isLower, Bool.and_eq_true, decide_eq_true_eq] at *
  by_contra hb
  simp only [Bool.not_eq_false, Bool.and_eq_true, decide_eq_true_eq] at hb
  have h1 : c.val.toNat ≤ 90 := h.2
  have h2 : 97 ≤ c.val.toNat := hb.1
  omega

/-- Characterisation of the `islower` loop over any case database in which an
upper- or titlecased character is never lowercase (as in the Unicode
database): the loop returns `true` iff every cased character seen is
lowercase and (the accumulator was set or) some cased character occurs. -/
theorem islowerLoop_spec (ud : UnicodeData)
    (hdisj : ∀ c, (ud.isUpper c || ud.isTitle c) = true → ud.isLower c = false)
    (l : List Char) (b : Bool) :
    islowerLoop ud l b = true ↔
      ((b = true ∨ ∃ c ∈ l, isCasedChar ud c = true) ∧
       ∀ c ∈ l, isCasedChar ud c = true → ud.isLower c = true) := by
  induction l generalizing b with
  | nil => simp [islowerLoop]
  | cons c cs ih =>
    by_cases hu : (ud.isUpper c || ud.isTitle c) = true
    · have hl : ud.isLower c = false := hdisj c hu
      have hcase : isCasedChar ud c = true := by
        have hor : ud.isUpper c = true ∨ ud.isTitle c = true := by simpa using hu
        rcases hor with h | h <;> simp [isCasedChar, h]
      simp only [islowerLoop, hu, if_true]
      constructor
      · intro h; exact absurd h (by simp)
      · intro h
        have := h.2 c (List.mem_cons_self c cs) hcase
        rw [hl] at this
        exact absurd this (by simp)
    · have hu' : (ud.isUpper c || ud.isTitle c) = false := by simpa using hu
      by_cases hl : ud.isLower c = true
      · have hcase : isCasedChar ud c = true := by simp [isCasedChar, hl]
        simp only [islowerLoop, hu', if_false, hl, if_true, Bool.false_eq_true]
        rw [ih]
        constructor
        · intro h
          refine ⟨Or.inr ⟨c, List.mem_cons_self c cs, hcase⟩, ?_⟩
          intro d hd hc
          rcases List.mem_cons.mp hd with h1 | h1
          · subst h1; exact hl
          · exact h.2 d h1 hc
        · intro h
          refine ⟨Or.inl rfl, ?_⟩
          intro d hd hc
          exact h.2 d (List.mem_cons_of_mem c hd) hc
      · have hl' : ud.isLower c = false := by simpa using hl
        have hup : ud.isUpper c = false := by
          rcases Bool.or_eq_false_iff.mp hu' with ⟨h1, _⟩; exact h1
        have hti : ud.isTitle c = false := by
          rcases Bool.or_eq_false_iff.mp hu' with ⟨_, h2⟩; exact h2
        have hc' : isCasedChar ud c = false := by simp [isCasedChar, hup, hti, hl']
        simp only [islowerLoop, hu', if_false, hl', Bool.false_eq_true]
        rw [ih]
        constructor
        · intro h
          refine ⟨?_, ?_⟩
          · rcases h.1 with h1 | ⟨d, hd, hcc⟩
            · exact Or.inl h1
            · exact Or.inr ⟨d, List.mem_cons_of_mem c hd, hcc⟩
          · intro d hd hcc
            rcases List.mem_cons.mp hd with h1 | h1
            · subst h1; rw [hc'] at hcc; exact absurd hcc (by simp)
            · exact h.2 d h1 hcc
        · intro h
          refine ⟨?_, ?_⟩
          · rcases h.1 with h1 | ⟨d, hd, hcc⟩
            · exact Or.inl h1
            · rcases List.mem_cons.mp hd with h1 | h1
              · subst h1; rw [hc'] at hcc; exact absurd hcc (by simp)
              · exact Or.inr ⟨d, h1, hcc⟩
          · intro d hd hcc
            exact h.2 d (List.mem_cons_of_mem c hd) hcc

/-- The basetexture line is never the `$ignorez` line, whatever the names. -/
theorem btex_line_ne_ignorez (bp bt : String) :
    (btex_line bp bt == "\t$ignorez 1") = false := by
  rw [beq_eq_false_iff_ne]
  intro h
  have hl := congrArg String.length h
  simp only [btex_line, String.length_append] at hl
  have h1 : ("\t\"$basetexture\" \"" : String).length = 17 := by rfl
  have h2 : ("/" : String).length = 1 := by rfl
  have h3 : ("\"" : String).length = 1 := by rfl
  have h4 : ("\t$ignorez 1" : String).length = 11 := by rfl
  omega

/-- C5: every run writes exactly three descriptor files — `sprite_<ns>.vmt`,
`sprite_<ns>_noz.vmt`, `icon_<ns>.vmt` — the two sprite files carry the
identical basetexture path `vgui/ttt/roles/<ns>/sprite_<ns>`, only the `_noz`
file contains the `$ignorez` line, and the icon file references the icon
texture without that line. -/
theorem c5_descriptor_files (out ns : String) :
    generate_vmt_files out ns =
      [Event.writeText (out ++ "/sprite_" ++ ns ++ ".vmt")
         (vmt_content ("vgui/ttt/roles/" ++ ns) ("sprite_" ++ ns) false),
       Event.writeText (out ++ "/sprite_" ++ ns ++ "_noz.vmt")
         (vmt_content ("vgui/ttt/roles/" ++ ns) ("sprite_" ++ ns) true),
       Event.writeText (out ++ "/icon_" ++ ns ++ ".vmt")
         (vmt_content ("vgui/ttt/roles/" ++ ns) ("icon_" ++ ns) false)] ∧
    hasLine (vmt_lines ("vgui/ttt/roles/" ++ ns) ("sprite_" ++ ns) false)
      (btex_line ("vgui/ttt/roles/" ++ ns) ("sprite_" ++ ns)) = true ∧
    hasLine (vmt_lines ("vgui/ttt/roles/" ++ ns) ("sprite_" ++ ns) true)
      (btex_line ("vgui/ttt/roles/" ++ ns) ("sprite_" ++ ns)) = true ∧
    hasLine (vmt_lines ("vgui/ttt/roles/" ++ ns) ("sprite_" ++ ns) true)
      "\t$ignorez 1" = true ∧
    hasLine (vmt_lines ("vgui/ttt/roles/" ++ ns) ("sprite_" ++ ns) false)
      "\t$ignorez 1" = false ∧
    hasLine (vmt_lines ("vgui/ttt/roles/" ++ ns) ("icon_" ++ ns) false)
      "\t$ignorez 1" = false := by
  refine ⟨rfl, ?_, ?_, ?_, ?_, ?_⟩
  · simp [hasLine, vmt_lines]
  · simp [hasLine, vmt_lines]
  · simp [hasLine, vmt_lines]
  · simp [hasLine, vmt_lines, btex_line_ne_ignorez]
  · simp [hasLine, vmt_lines, btex_line_ne_ignorez]

/-- The loop body `convertOne` always invokes the converter on its file exactly once,
whatever the exit code. -/
theorem converterCalls_convertOne (exits : String → Int) (out png : String) :
    converterCalls (convertOne exits out png) = [out ++ "/" ++ png] := by
  unfold convertOne runSubprocessCheck
  by_cases he : exits png = 0
  · rw [if_pos he]; rfl
  · rw [if_neg he]; rfl

/-- C8: the converter invoker never raises to its caller; with `skip` set it
only reports the skip, with the executable absent it only warns, and
otherwise it invokes the converter for both the sprite and the icon PNG,
continuing past per-file failures. -/
theorem c8_convert_vtf_no_raise (exits : String → Int) (vtfExists : Bool)
    (out ns : String) (skip : Bool) :
    (convert_vtf exits vtfExists out ns skip).2 = Except.ok () ∧
    (skip = true → (convert_vtf exits vtfExists out ns skip).1 =
       [Event.printMsg "– Skipping VTF conversion."]) ∧
    (skip = false → vtfExists = false →
       (convert_vtf exits vtfExists out ns skip).1 =
         [Event.printMsg ("⚠️  VTFCmd.exe not found at " ++ VTF_CMD ++ "; skipping.")]) ∧
    (skip = false → vtfExists = true →
       (convert_vtf exits vtfExists out ns skip).1 =
         convertOne exits out ("sprite_" ++ ns ++ ".png") ++
           convertOne exits out ("icon_" ++ ns ++ ".png") ∧
       converterCalls (convert_vtf exits vtfExists out ns skip).1 =
         [out ++ "/" ++ ("sprite_" ++ ns ++ ".png"),
          out ++ "/" ++ ("icon_" ++ ns ++ ".png")]) := by
  by_cases hs : skip = true
  · subst hs
    refine ⟨rfl, fun _ => rfl, ?_, ?_⟩
    · intro h; exact absurd h (by simp)
    · intro h; exact absurd h (by simp)
  · have hs' : skip = false := by simpa using hs
    subst hs'
    by_cases hv : vtfExists = true
    · subst hv
      refine ⟨rfl, ?_, ?_, ?_⟩
      · intro h; exact absurd h (by simp)
      · intro _ h; exact absurd h (by simp)
      · intro _ _
        constructor
        · simp [convert_vtf]
        · have htr : (convert_vtf exits true out ns false).1 =
              convertOne exits out ("sprite_" ++ ns ++ ".png") ++
                convertOne exits out ("icon_" ++ ns ++ ".png") := by
            simp [convert_vtf]
          rw [htr, converterCalls]
          rw [List.filterMap_append]
          rw [← converterCalls, ← converterCalls]
          rw [converterCalls_convertOne, converterCalls_convertOne]
          rfl
    · have hv' : vtfExists = false := by simpa using hv
      subst hv'
      refine ⟨rfl, ?_, fun _ _ => rfl, ?_⟩
      · intro h; exact absurd h (by simp)
      · intro _ h; exact absurd h (by simp)

/-- Witness for C8 at concrete inputs: a failing exit code still yields a
normal return, and skipping only prints the notice. -/
theorem c8_convert_vtf_no_raise_witness :
    (convert_vtf (fun _ => 1) true "o" "x" false).2 = Except.ok () ∧
    (convert_vtf (fun _ => 0) false "o" "x" true).1 =
      [Event.printMsg "– Skipping VTF conversion."] :=
  ⟨(c8_convert_vtf_no_raise (fun _ => 1) true "o" "x" false).1,
   (c8_convert_vtf_no_raise (fun _ => 0) false "o" "x" true).2.1 rfl⟩

/-- C10: over every case database in which an upper- or titlecased character
is never lowercase — the Unicode database CPython's `str.islower` consults is
such a database — the nameshort validation accepts a string iff it contains
at least one cased character and every cased character is lowercase.
Consequently a nameshort whose characters are all uncased, such as the
digits-only `123` (digits are uncased in the database), is rejected with the
lowercase error and the non-zero exit even though it contains no uppercase
letter, while `foo2` (with `f`, `o` lowercase and the digit `2` uncased) is
accepted. -/
theorem c10_islower_semantics (ud : UnicodeData)
    (hdisj : ∀ c, (ud.isUpper c || ud.isTitle c) = true → ud.isLower c = false) :
    (∀ s : String, pyStrIsLower ud s = true ↔
       ((∃ c ∈ s.toList, isCasedChar ud c = true) ∧
        ∀ c ∈ s.toList, isCasedChar ud c = true → ud.isLower c = true)) ∧
    ((∀ c ∈ ("123" : String).toList, isCasedChar ud c = false) →
       pyStrIsLower ud "123" = false ∧
       ∀ (rk : ResizeKernel) (bk : BlurKernel),
         mainEntry rk bk ud args123 =
           ([], Outcome.exited "Error: nameshort must be lowercase")) ∧
    (ud.isLower 'f' = true → ud.isLower 'o' = true → isCasedChar ud '2' = false →
       pyStrIsLower ud "foo2" = true) := by
  have hiff : ∀ s : String, pyStrIsLower ud s = true ↔
      ((∃ c ∈ s.toList, isCasedChar ud c = true) ∧
       ∀ c ∈ s.toList, isCasedChar ud c = true → ud.isLower c = true) := by
    intro s
    rw [pyStrIsLower, islowerLoop_spec ud hdisj]
    simp
  refine ⟨hiff, ?_, ?_⟩
  · intro hnone
    have hfalse : pyStrIsLower ud "123" = false := by
      cases hv : pyStrIsLower ud "123"
      · rfl
      · rcases ((hiff "123").mp hv).1 with ⟨c, hc, hcc⟩
        rw [hnone c hc] at hcc
        exact absurd hcc (by simp)
    refine ⟨hfalse, ?_⟩
    intro rk bk
    have hns : args123.nameshort = "123" := rfl
    simp [mainEntry, hns, hfalse]
  · intro hf ho h2
    refine (hiff "foo2").mpr ⟨⟨'f', by decide, by simp [isCasedChar, hf]⟩, ?_⟩
    have hlist : ("foo2" : String).toList = ['f', 'o', 'o', '2'] := rfl
    rw [hlist]
    intro c hc hcc
    rcases List.mem_cons.mp hc with h | hc
    · subst h; exact hf
    rcases List.mem_cons.mp hc with h | hc
    · subst h; exact ho
    rcases List.mem_cons.mp hc with h | hc
    · subst h; exact ho
    rcases List.mem_cons.mp hc with h | hc
    · subst h; rw [h2] at hcc; exact absurd hcc (by simp)
    · exact absurd hc (by simp)

/-- Witness for C10: the characterisation and both consequences instantiated
at the ASCII fragment of the case database, which agrees with the Unicode
database on every character of `123`, `foo2` and `abc`. -/
theorem c10_islower_semantics_witness :
    pyStrIsLower asciiUD "abc" = true ∧
    pyStrIsLower asciiUD "123" = false ∧
    pyStrIsLower asciiUD "foo2" = true := by
  have hdisj : ∀ c, (asciiUD.isUpper c || asciiUD.isTitle c) = true →
      asciiUD.isLower c = false := by
    intro c h
    have hu : c.isUpper = true := by simpa [asciiUD] using h
    exact isUpper_isLower_false c hu
  refine ⟨?_, ?_, ?_⟩
  · exact ((c10_islower_semantics asciiUD hdisj).1 "abc").mpr
      ⟨⟨'a', by decide, by decide⟩, by decide⟩
  · exact ((c10_islower_semantics asciiUD hdisj).2.1 (by decide)).1
  · exact (c10_islower_semantics asciiUD hdisj).2.2 (by decide) (by decide) (by decide)

/-- The invoker `convert_vtf` always returns normally (its exception component is `ok`). -/
theorem convert_vtf_snd_ok (exits : String → Int) (v : Bool) (out ns : String) (s : Bool) :
    (convert_vtf exits v out ns s).2 = Except.ok () := by
  cases s <;> cases v <;> rfl

/-- A run with a valid nameshort starts by creating the output directory. -/
theorem mainEntry_valid_head (rk : ResizeKernel) (bk : BlurKernel)
    (ud : UnicodeData) (a : Args)
    (h : pyStrIsLower ud a.nameshort = true) :
    (mainEntry rk bk ud a).1.head? =
      some (Event.mkdirp (a.out ++ "/converted/" ++ a.nameshort)) := by
  simp only [mainEntry, h]
  rw [if_neg (by simp)]
  cases himg : a.image with
  | none =>
    simp [create_png_set, himg]
  | some img =>
    simp only [create_png_set, himg]
    rcases h2 : convert_vtf a.converterExits a.vtfExists
        (a.out ++ "/converted/" ++ a.nameshort) a.nameshort a.no_vtf with ⟨tr2, r2⟩
    have hok := convert_vtf_snd_ok a.converterExits a.vtfExists
        (a.out ++ "/converted/" ++ a.nameshort) a.nameshort a.no_vtf
    rw [h2] at hok
    simp at hok
    subst hok
    simp [h2]

/-- C6: over every case database (the Unicode database CPython consults
included), a nameshort that is not all-lowercase — `islower` false — makes
the run exit with the user-facing error before any effect at all (empty
trace); an all-lowercase nameshort proceeds — the run's first effect is
creating the output directory. -/
theorem c6_lowercase_validation (rk : ResizeKernel) (bk : BlurKernel)
    (ud : UnicodeData) (a : Args) :
    (pyStrIsLower ud a.nameshort = false →
       mainEntry rk bk ud a = ([], Outcome.exited "Error: nameshort must be lowercase")) ∧
    (pyStrIsLower ud a.nameshort = true →
       (mainEntry rk bk ud a).1.head? =
         some (Event.mkdirp (a.out ++ "/converted/" ++ a.nameshort))) := by
  constructor
  · intro h
    simp [mainEntry, h]
  · intro h
    exact mainEntry_valid_head rk bk ud a h

/-- Witness for C6: `Foo` is rejected with an empty trace, `foo` proceeds
into directory creation. -/
theorem c6_lowercase_validation_witness :
    pyStrIsLower asciiUD "Foo" = false ∧
    mainEntry rkNearest bkId asciiUD argsFoo =
      ([], Outcome.exited "Error: nameshort must be lowercase") ∧
    pyStrIsLower asciiUD "foo" = true ∧
    (mainEntry rkNearest bkId asciiUD argsfoo).1.head? =
      some (Event.mkdirp "RoleAddon/converted/foo") := by
  refine ⟨by decide, ?_, by decide, ?_⟩
  · exact (c6_lowercase_validation rkNearest bkId asciiUD argsFoo).1 (by decide)
  · have h := (c6_lowercase_validation rkNearest bkId asciiUD argsfoo).2 (by decide)
    simpa using h

/-- C7: when the source image is unreadable or missing, an otherwise valid
run terminates with the unhandled image-load failure, and its trace contains
no PNG save and no descriptor write (only the directory creation happened). -/
theorem c7_image_load_fatal (rk : ResizeKernel) (bk : BlurKernel)
    (ud : UnicodeData) (a : Args)
    (hlc : pyStrIsLower ud a.nameshort = true) (himg : a.image = none) :
    (mainEntry rk bk ud a).2 = Outcome.raised "ImageLoadError" ∧
    pngSaves (mainEntry rk bk ud a).1 = [] ∧
    textWrites (mainEntry rk bk ud a).1 = [] := by
  simp only [mainEntry, hlc]
  rw [if_neg (by simp)]
  simp [create_png_set, himg, pngSaves, textWrites]

/-- Witness for C7 at concrete arguments with a missing source image. -/
theorem c7_image_load_fatal_witness :
    pyStrIsLower asciiUD argsNoImage.nameshort = true ∧ argsNoImage.image = none ∧
    (mainEntry rkNearest bkId asciiUD argsNoImage).2 = Outcome.raised "ImageLoadError" ∧
    pngSaves (mainEntry rkNearest bkId asciiUD argsNoImage).1 = [] :=
  ⟨by decide, rfl,
   (c7_image_load_fatal rkNearest bkId asciiUD argsNoImage (by decide) rfl).1,
   (c7_image_load_fatal rkNearest bkId asciiUD argsNoImage (by decide) rfl).2.1⟩

/-- Merging the literal pieces of a `<variant>_<ns>.png` path. -/
theorem path_merge (out v lit ns : String) (h : "/" ++ v ++ "_" = lit) :
    out ++ "/" ++ v ++ "_" ++ ns ++ ".png" = out ++ lit ++ ns ++ ".png" := by
  subst h
  simp [String.append_assoc]

/-- C1 (amended): a sprite/icon output PNG has the template's full dimensions
(width and height) when the template file exists — hence it is square exactly
when the template is — and is a square of the default size 256 otherwise; the
tab and score outputs are 16×16 and 64×64. -/
theorem c1_output_dims_amended (rk : ResizeKernel) (bk : BlurKernel)
    (tpls : String → Option Image) (img : Image) (out ns : String) :
    pngSaves (create_png_set rk bk tpls (some img) out ns).1 =
      [(out ++ "/tab_" ++ ns ++ ".png", 16, 16),
       (out ++ "/score_" ++ ns ++ ".png", 64, 64),
       (out ++ "/sprite_" ++ ns ++ ".png", templateDims (tpls "sprite_template.png") 256),
       (out ++ "/icon_" ++ ns ++ ".png", templateDims (tpls "icon_template.png") 256)] := by
  rcases h1 : tpls "sprite_template.png" with _ | t1 <;>
    rcases h2 : tpls "icon_template.png" with _ | t2 <;>
      simp [create_png_set, processVariant, specs, pngSaves, templateDims, h1, h2,
        iconLayerImg, Image.paste, Image.new] <;>
      exact ⟨path_merge out "score" "/score_" ns rfl,
        path_merge out "sprite" "/sprite_" ns rfl,
        path_merge out "icon" "/icon_" ns rfl⟩

/-- C1 counterexample: with a non-square 300×200 sprite template the saved
sprite PNG is 300×200 — its height differs from the template's width, so the
output is not a square of side `template.width`. -/
theorem c1_nonsquare_counterexample :
    pngSaves (create_png_set rkNearest bkId tplsNonSquare (some img8) "out" "x").1 =
      [("out/tab_x.png", 16, 16), ("out/score_x.png", 64, 64),
       ("out/sprite_x.png", 300, 200), ("out/icon_x.png", 256, 256)] ∧
    200 < 300 := by
  constructor
  · decide
  · decide

/-- C2 (amended): the resized icon inside the layer — the thumbnail of the
source at target `max(canvasSize - 2*margin, 1)`, exactly as `make_icon_layer`
computes it — never exceeds `max(canvasSize - 2*margin, 1)` in either
dimension, and never exceeds the source image's native dimensions. -/
theorem c2_thumbnail_bounds_amended (rk : ResizeKernel) (img : Image)
    (canvas_size margin : Int) (hw : 0 < img.width) (hh : 0 < img.height) :
    (Image.thumbnail rk img (max (canvas_size - 2 * margin) 1)
        (max (canvas_size - 2 * margin) 1)).width ≤
      (max (canvas_size - 2 * margin) 1).toNat ∧
    (Image.thumbnail rk img (max (canvas_size - 2 * margin) 1)
        (max (canvas_size - 2 * margin) 1)).height ≤
      (max (canvas_size - 2 * margin) 1).toNat ∧
    (Image.thumbnail rk img (max (canvas_size - 2 * margin) 1)
        (max (canvas_size - 2 * margin) 1)).width ≤ img.width ∧
    (Image.thumbnail rk img (max (canvas_size - 2 * margin) 1)
        (max (canvas_size - 2 * margin) 1)).height ≤ img.height :=
  thumbnail_dims_le rk img _ _ (le_max_right _ _) (le_max_right _ _) hw hh

/-- Witness for C2 at the sprite parameters (canvas 256, margin 3) on the
concrete 8×8 source. -/
theorem c2_thumbnail_bounds_amended_witness :
    (Image.thumbnail rkNearest img8 (max ((256 : Int) - 2 * 3) 1)
        (max ((256 : Int) - 2 * 3) 1)).width ≤
      (max ((256 : Int) - 2 * 3) 1).toNat ∧
    (Image.thumbnail rkNearest img8 (max ((256 : Int) - 2 * 3) 1)
        (max ((256 : Int) - 2 * 3) 1)).width ≤ img8.width :=
  ⟨(c2_thumbnail_bounds_amended rkNearest img8 256 3 (by decide) (by decide)).1,
   (c2_thumbnail_bounds_amended rkNearest img8 256 3 (by decide) (by decide)).2.2.1⟩

/-- C2 counterexample: with an 8×8 source, canvasSize 0 and margin 1 the
clamped target is 1 and the resized icon is 1×1, which exceeds
`canvasSize - 2*margin = -2`: the unclamped bound claimed for the
`canvasSize - 2*margin < 1` case fails. -/
theorem c2_counterexample :
    (Image.thumbnail rkNearest img8 (max ((0 : Int) - 2 * 1) 1)
        (max ((0 : Int) - 2 * 1) 1)).width = 1 ∧
    (0 : Int) - 2 * 1 <
      ((Image.thumbnail rkNearest img8 (max ((0 : Int) - 2 * 1) 1)
          (max ((0 : Int) - 2 * 1) 1)).width : Int) := by
  have hs : max ((0 : Int) - 2 * 1) 1 = 1 := by decide
  have hw : img8.width = 8 := rfl
  have hh : img8.height = 8 := rfl
  have hbr : ((8 : Nat) : ℚ) / ((8 : Nat) : ℚ) ≤ ((1 : Int) : ℚ) / ((1 : Int) : ℚ) := by
    norm_num
  have hp : thumbTarget 8 8 1 1 = (1, 1) := by
    rw [thumbTarget_pos_eq 8 8 1 1 hbr]
    have hq : ((1 : Int) : ℚ) * (((8 : Nat) : ℚ) / ((8 : Nat) : ℚ)) = 1 := by norm_num
    rw [hq]
    unfold round_aspect
    rw [Int.floor_one, Int.ceil_one]
    simp
  have hne : ¬((img8.width : Int) ≤ 1 ∧ (img8.height : Int) ≤ 1) := by decide
  have h2 : ¬(img8.width = (thumbTarget img8.width img8.height 1 1).1.toNat ∧
      img8.height = (thumbTarget img8.width img8.height 1 1).2.toNat) := by
    rw [hw, hh, hp]
    decide
  have heq : Image.thumbnail rkNearest img8 1 1 =
      img8.resize rkNearest (thumbTarget img8.width img8.height 1 1).1.toNat
        (thumbTarget img8.width img8.height 1 1).2.toNat := by
    simp only [Image.thumbnail]
    rw [if_neg hne, if_neg h2]
  have hwidth : (Image.thumbnail rkNearest img8 1 1).width = 1 := by
    rw [heq]
    simp only [Image.resize]
    rw [hw, hh, hp]
    decide
  constructor
  · rw [hs]; exact hwidth
  · rw [hs, hwidth]; decide

/-- C3: the layer compositor returns the icon-only composite when
`blur = 0` (no shadow drawn), and when `blur > 0` it first pastes the shadow —
the icon's alpha silhouette filled black, Gaussian-blurred with radius
`blur` — at the centred position diagonally offset by `offset`, with the
shadow's own alpha as mask, then pastes the sharp icon centred over it. -/
theorem c3_layer_structure (rk : ResizeKernel) (bk : BlurKernel) (img : Image)
    (canvas_size blur offset margin : Int) :
    (blur = 0 →
      make_icon_layer rk bk (some img) canvas_size blur offset margin =
        Except.ok (
          let icon := Image.thumbnail rk img (max (canvas_size - 2 * margin) 1)
            (max (canvas_size - 2 * margin) 1)
          (Image.new canvas_size.toNat canvas_size.toNat ⟨0, 0, 0, 0⟩).paste icon icon
            ((canvas_size - (icon.width : Int)).fdiv 2,
             (canvas_size - (icon.height : Int)).fdiv 2))) ∧
    (0 < blur →
      make_icon_layer rk bk (some img) canvas_size blur offset margin =
        Except.ok (
          let icon := Image.thumbnail rk img (max (canvas_size - 2 * margin) 1)
            (max (canvas_size - 2 * margin) 1)
          let sh := Image.gaussianBlur bk
            ⟨icon.width, icon.height, fun x y => ⟨0, 0, 0, (icon.px x y).a⟩⟩ blur
          ((Image.new canvas_size.toNat canvas_size.toNat ⟨0, 0, 0, 0⟩).paste sh sh
              ((canvas_size - (sh.width : Int)).fdiv 2 + offset,
               (canvas_size - (sh.height : Int)).fdiv 2 + offset)).paste icon icon
            ((canvas_size - (icon.width : Int)).fdiv 2,
             (canvas_size - (icon.height : Int)).fdiv 2))) := by
  constructor
  · intro h
    subst h
    rfl
  · intro h
    simp only [make_icon_layer, openRGBA, Except.map, iconLayerImg, build_shadow]
    rw [if_pos h]

/-- Witness for C3: both branches at concrete inputs (blur 0 and blur 3). -/
theorem c3_layer_structure_witness :
    make_icon_layer rkNearest bkId (some img8) 16 0 0 0 =
      Except.ok (
        let icon := Image.thumbnail rkNearest img8 (max ((16 : Int) - 2 * 0) 1)
          (max ((16 : Int) - 2 * 0) 1)
        (Image.new (16 : Int).toNat (16 : Int).toNat ⟨0, 0, 0, 0⟩).paste icon icon
          (((16 : Int) - (icon.width : Int)).fdiv 2,
           ((16 : Int) - (icon.height : Int)).fdiv 2)) ∧
    make_icon_layer rkNearest bkId (some img8) 256 3 2 3 =
      Except.ok (
        let icon := Image.thumbnail rkNearest img8 (max ((256 : Int) - 2 * 3) 1)
          (max ((256 : Int) - 2 * 3) 1)
        let sh := Image.gaussianBlur bkId
          ⟨icon.width, icon.height, fun x y => ⟨0, 0, 0, (icon.px x y).a⟩⟩ 3
        ((Image.new (256 : Int).toNat (256 : Int).toNat ⟨0, 0, 0, 0⟩).paste sh sh
            (((256 : Int) - (sh.width : Int)).fdiv 2 + 2,
             ((256 : Int) - (sh.height : Int)).fdiv 2 + 2)).paste icon icon
          (((256 : Int) - (icon.width : Int)).fdiv 2,
           ((256 : Int) - (icon.height : Int)).fdiv 2)) :=
  ⟨(c3_layer_structure rkNearest bkId img8 16 0 0 0).1 rfl,
   (c3_layer_structure rkNearest bkId img8 256 3 2 3).2 (by decide)⟩

/-- C4: the score variant is always produced on a blank transparent 64×64
canvas with the zero-margin icon layer pasted at the origin (centred), and no
`score_template.png` is ever read, whatever the template directory holds. -/
theorem c4_score_ignores_template (rk : ResizeKernel) (bk : BlurKernel)
    (tpls : String → Option Image) (img : Image) (out ns : String) :
    (templateReads (create_png_set rk bk tpls (some img) out ns).1).contains
      "score_template.png" = false ∧
    (pngSavesFull (create_png_set rk bk tpls (some img) out ns).1).get? 1 =
      some (out ++ "/score_" ++ ns ++ ".png",
        (Image.new 64 64 ⟨0, 0, 0, 0⟩).paste
          (iconLayerImg rk bk img 64 0 0 0)
          (iconLayerImg rk bk img 64 0 0 0) (0, 0)) := by
  constructor
  · rcases h1 : tpls "sprite_template.png" with _ | t1 <;>
      rcases h2 : tpls "icon_template.png" with _ | t2 <;>
        simp [create_png_set, processVariant, specs, templateReads, h1, h2]
  · rw [← path_merge out "score" "/score_" ns rfl]
    rfl

/-- C9: the end-to-end scenario — 512×512 opaque source, nameshort `test`,
`--no-vtf`, no templates — produces exactly four PNGs of sizes 16, 64, 256,
256, exactly three `.vmt` files under `RoleAddon/converted/test/`, no
converter invocation, the printed skip notice, and a normal exit. -/
theorem c9_end_to_end :
    pngSaves (mainEntry rkNearest bkId asciiUD argsC9).1 =
      [("RoleAddon/converted/test/tab_test.png", 16, 16),
       ("RoleAddon/converted/test/score_test.png", 64, 64),
       ("RoleAddon/converted/test/sprite_test.png", 256, 256),
       ("RoleAddon/converted/test/icon_test.png", 256, 256)] ∧
    textWrites (mainEntry rkNearest bkId asciiUD argsC9).1 =
      ["RoleAddon/converted/test/sprite_test.vmt",
       "RoleAddon/converted/test/sprite_test_noz.vmt",
       "RoleAddon/converted/test/icon_test.vmt"] ∧
    converterCalls (mainEntry rkNearest bkId asciiUD argsC9).1 = [] ∧
    prints (mainEntry rkNearest bkId asciiUD argsC9).1 = ["– Skipping VTF conversion."] ∧
    (mainEntry rkNearest bkId asciiUD argsC9).2 = Outcome.ok := by
  refine ⟨?_, ?_, ?_, ?_, ?_⟩ <;> decide
